import Mathlib

/-!
# Verification of the a121-rs radar driver core

A shallow embedding of the a121-rs crate's host-side logic: the memory
accountant (`src/memory.rs`), the radar configuration mutation guards
(`src/config.rs`), the sensor calibration protocol (`src/sensor.rs`), the
lifecycle state machine (`src/radar.rs`), and the distance/presence detector
orchestrators (`src/detector/distance.rs`, `src/detector/presence.rs`).

The vendor compute engine (the `a121-sys` FFI surface) is opaque; every
engine primitive is modelled as an oracle parameter: a boolean success flag,
a pair of out-parameters, or a trace `Nat → Bool × Bool` giving the values
the engine writes on the k-th invocation of a primitive.  Host code is
translated statement by statement from the Rust source.
-/

namespace A121

/-! ## Error types (`src/sensor/error.rs`, `src/config/error.rs`) -/

/-- `SensorError` from `src/sensor/error.rs`. -/
inductive SensorError where
  | CalibrationFailed
  | PrepareFailed
  | MeasurementError
  | ReadError
  | HibernationOffFailed
  | HibernationOnFailed
  | CalibrationInvalid
  | NotReady
  | CalibrationInfo
  | ResultNotAvailable
  | ProcessingFailed
  | BufferTooSmall
  | InitFailed
  deriving DecidableEq, Repr

/-- `ProcessDataError` from `src/sensor/error.rs`. -/
inductive ProcessDataError where
  | CalibrationNeeded
  | ProcessingFailed
  | Unavailable
  | BufferTooSmall
  deriving DecidableEq, Repr

/-- `ConfigError` from `src/config/error.rs`. -/
inductive ConfigError where
  | Hwaas
  | ContinuousSweepMode
  | SweepRate
  | NumSubsweep
  | BufferSize
  deriving DecidableEq, Repr

/-! ## Memory accountant (`src/memory.rs`)

The constants and the compile-time `const fn` formulas, translated to `Nat`
arithmetic.  On a 64-bit target `usize` arithmetic never overflows on the
`u16 × u8 × u16` input domain (proved below), so the `Nat` translation is
exact there; a separate 32-bit variant with explicit `% 2^32` wrapping models
the release-mode behaviour on 32-bit targets. -/

/-- `OVERHEAD`: overhead for external heap allocations. -/
def OVERHEAD : ℕ := 68

/-- `CALIB_BUFFER`: size of calibration buffer. -/
def CALIB_BUFFER : ℕ := 2492

/-- `BYTES_PER_POINT`: bytes per measurement point. -/
def BYTES_PER_POINT : ℕ := 4

/-- `RSS_HEAP_PER_SUBSWEEP`. -/
def RSS_HEAP_PER_SUBSWEEP : ℕ := 236

/-- `RSS_HEAP_PER_SENSOR`. -/
def RSS_HEAP_PER_SENSOR : ℕ := 636

/-- `RSS_HEAP_PER_CONFIG`. -/
def RSS_HEAP_PER_CONFIG : ℕ := 512

/-- `SIZE_OF_FLOAT`. -/
def SIZE_OF_FLOAT : ℕ := 4

/-- `PRESENCE_HEAP_OVERHEAD`. -/
def PRESENCE_HEAP_OVERHEAD : ℕ := 256

/-- `DISTANCE_HEAP_OVERHEAD`. -/
def DISTANCE_HEAP_OVERHEAD : ℕ := 1028

/-- `DISTANCE_HEAP_PER_PROCESSOR`. -/
def DISTANCE_HEAP_PER_PROCESSOR : ℕ := 224

/-- `FILTFILT_PAD_LEN`: padding length for filtfilt filtering. -/
def FILTFILT_PAD_LEN : ℕ := 9

/-- `PRESENCE_FILTER_PARAMS`: filter parameters per point. -/
def PRESENCE_FILTER_PARAMS : ℕ := 7

/-- `DISTANCE_MIN_STATIC_CAL_SIZE`. -/
def DISTANCE_MIN_STATIC_CAL_SIZE : ℕ := 2048

/-- `calc_session_external_heap(num_points_per_subsweep, num_subsweeps,
sweeps_per_frame)` from `src/memory.rs`. -/
def calc_session_external_heap (num_points_per_subsweep num_subsweeps
    sweeps_per_frame : ℕ) : ℕ :=
  let total_points := num_points_per_subsweep * num_subsweeps * sweeps_per_frame
  let buffer_size := total_points * BYTES_PER_POINT
  let base := if buffer_size > CALIB_BUFFER then buffer_size else CALIB_BUFFER
  base + OVERHEAD

/-- `calc_session_rss_heap(num_subsweeps)` from `src/memory.rs`. -/
def calc_session_rss_heap (num_subsweeps : ℕ) : ℕ :=
  RSS_HEAP_PER_CONFIG + num_subsweeps * RSS_HEAP_PER_SUBSWEEP + RSS_HEAP_PER_SENSOR

/-- `calc_session_total` from `src/memory.rs`. -/
def calc_session_total (num_points_per_subsweep num_subsweeps
    sweeps_per_frame : ℕ) : ℕ :=
  calc_session_external_heap num_points_per_subsweep num_subsweeps sweeps_per_frame
    + calc_session_rss_heap num_subsweeps

/-- `calc_presence_external_heap(num_points, num_subsweeps, sweeps_per_frame)`
from `src/memory.rs` (`num_points` is documented as the total across all
subsweeps). -/
def calc_presence_external_heap (num_points num_subsweeps sweeps_per_frame : ℕ) : ℕ :=
  let session_ext := calc_session_external_heap num_points num_subsweeps sweeps_per_frame
  let presence_ext := num_points * 2 * SIZE_OF_FLOAT
  session_ext + presence_ext

/-- `calc_presence_rss_heap(num_points, num_subsweeps)` from `src/memory.rs`. -/
def calc_presence_rss_heap (num_points num_subsweeps : ℕ) : ℕ :=
  let session_rss := RSS_HEAP_PER_CONFIG + num_subsweeps * RSS_HEAP_PER_SUBSWEEP
  let presence_rss := num_points * PRESENCE_FILTER_PARAMS * SIZE_OF_FLOAT
  PRESENCE_HEAP_OVERHEAD + presence_rss + RSS_HEAP_PER_SENSOR + session_rss

/-- `calc_presence_total` from `src/memory.rs`. -/
def calc_presence_total (num_points num_subsweeps sweeps_per_frame : ℕ) : ℕ :=
  calc_presence_external_heap num_points num_subsweeps sweeps_per_frame
    + calc_presence_rss_heap num_points num_subsweeps

/-- `calc_distance_external_heap(num_points, num_subsweeps, sweeps_per_frame)`
from `src/memory.rs`. -/
def calc_distance_external_heap (num_points num_subsweeps sweeps_per_frame : ℕ) : ℕ :=
  let session_ext := calc_session_external_heap num_points num_subsweeps sweeps_per_frame
  let work_buffer := (num_points + 2 * FILTFILT_PAD_LEN) * 2 * SIZE_OF_FLOAT
  let calib_buffer := num_points * SIZE_OF_FLOAT * 3
  let close_range_buffer :=
    if sweeps_per_frame > 1 then sweeps_per_frame * num_points * SIZE_OF_FLOAT else 0
  session_ext + work_buffer + calib_buffer + close_range_buffer

/-- `calc_distance_rss_heap(num_subsweeps)` from `src/memory.rs`. -/
def calc_distance_rss_heap (num_subsweeps : ℕ) : ℕ :=
  let session_rss := RSS_HEAP_PER_CONFIG + num_subsweeps * RSS_HEAP_PER_SUBSWEEP
  let processor_heap := DISTANCE_HEAP_PER_PROCESSOR * 2
  DISTANCE_HEAP_OVERHEAD + processor_heap + RSS_HEAP_PER_SENSOR + session_rss

/-- `calc_distance_total` from `src/memory.rs`. -/
def calc_distance_total (num_points num_subsweeps sweeps_per_frame : ℕ) : ℕ :=
  calc_distance_external_heap num_points num_subsweeps sweeps_per_frame
    + calc_distance_rss_heap num_subsweeps

/-- `calc_distance_static_cal_size(num_points)` from `src/memory.rs`. -/
def calc_distance_static_cal_size (num_points : ℕ) : ℕ :=
  let calculated := num_points * SIZE_OF_FLOAT * 2
  if calculated > DISTANCE_MIN_STATIC_CAL_SIZE then calculated
  else DISTANCE_MIN_STATIC_CAL_SIZE

/-- `calc_session_external_heap` as executed by a release build on a 32-bit
target: every `usize` operation wraps modulo `2^32`.  (On such a target
`as usize` casts of `u16`/`u8` are value-preserving; only the products and
sums can wrap.) -/
def calc_session_external_heap_u32 (num_points_per_subsweep num_subsweeps
    sweeps_per_frame : ℕ) : ℕ :=
  let total_points :=
    num_points_per_subsweep * num_subsweeps % 2 ^ 32 * sweeps_per_frame % 2 ^ 32
  let buffer_size := total_points * BYTES_PER_POINT % 2 ^ 32
  let base := if buffer_size > CALIB_BUFFER then buffer_size else CALIB_BUFFER
  (base + OVERHEAD) % 2 ^ 32

/-! ## Runtime memory calculators (`src/memory.rs`, lines 425-627)

The runtime calculators read a live `RadarConfig` through the engine getters
`num_subsweep()`, `sweeps_per_frame()` and `get_subsweep(i).num_points(config)`.
Only those three observations are consumed, so the engine-side configuration
object is modelled by exactly them. -/

/-- The engine-side configuration state observed by the runtime memory
calculators: `acc_config_num_subsweeps_get`, `acc_config_sweeps_per_frame_get`
and `acc_config_subsweep_num_points_get` per subsweep index. -/
structure ConfigView where
  num_subsweep : ℕ
  sweeps_per_frame : ℕ
  subsweep_num_points : ℕ → ℕ

/-- The accumulation loop `for i in 0..num_subsweeps { total_points +=
subsweep.num_points(config) }` shared by all three runtime calculators. -/
def pointsLoop (pts : ℕ → ℕ) : ℕ → ℕ
  | 0 => 0
  | i + 1 => pointsLoop pts i + pts i

/-- `SessionMemoryCalculator::total_num_points`: the subsweep loop total times
`sweeps_per_frame`. -/
def SessionMemoryCalculator.total_num_points (c : ConfigView) : ℕ :=
  pointsLoop c.subsweep_num_points c.num_subsweep * c.sweeps_per_frame

/-- `SessionMemoryCalculator::external_heap`. -/
def SessionMemoryCalculator.external_heap (c : ConfigView) : ℕ :=
  let total_points := SessionMemoryCalculator.total_num_points c
  let buffer_size := total_points * BYTES_PER_POINT
  max buffer_size CALIB_BUFFER + OVERHEAD

/-- `SessionMemoryCalculator::rss_heap`. -/
def SessionMemoryCalculator.rss_heap (c : ConfigView) : ℕ :=
  RSS_HEAP_PER_CONFIG + c.num_subsweep * RSS_HEAP_PER_SUBSWEEP + RSS_HEAP_PER_SENSOR

/-- `PresenceMemoryCalculator::total_num_points` (no `sweeps_per_frame`
factor). -/
def PresenceMemoryCalculator.total_num_points (c : ConfigView) : ℕ :=
  pointsLoop c.subsweep_num_points c.num_subsweep

/-- `PresenceMemoryCalculator::external_heap`. -/
def PresenceMemoryCalculator.external_heap (c : ConfigView) : ℕ :=
  let session_ext := SessionMemoryCalculator.external_heap c
  let num_points := PresenceMemoryCalculator.total_num_points c
  let presence_ext := num_points * 2 * SIZE_OF_FLOAT
  session_ext + presence_ext

/-- `PresenceMemoryCalculator::rss_heap`. -/
def PresenceMemoryCalculator.rss_heap (c : ConfigView) : ℕ :=
  let sweep_rss := SessionMemoryCalculator.rss_heap c
  let num_points := PresenceMemoryCalculator.total_num_points c
  let presence_rss := num_points * PRESENCE_FILTER_PARAMS * SIZE_OF_FLOAT
  PRESENCE_HEAP_OVERHEAD + presence_rss + sweep_rss

/-- `DistanceMemoryCalculator::total_num_points`. -/
def DistanceMemoryCalculator.total_num_points (c : ConfigView) : ℕ :=
  pointsLoop c.subsweep_num_points c.num_subsweep

/-- `DistanceMemoryCalculator::external_heap`. -/
def DistanceMemoryCalculator.external_heap (c : ConfigView) : ℕ :=
  let session_ext := SessionMemoryCalculator.external_heap c
  let num_points := DistanceMemoryCalculator.total_num_points c
  let sweeps_per_frame := c.sweeps_per_frame
  let work_buffer := (num_points + 2 * FILTFILT_PAD_LEN) * 2 * SIZE_OF_FLOAT
  let calib_buffer := num_points * SIZE_OF_FLOAT * 3
  let close_range_buffer :=
    if sweeps_per_frame > 1 then sweeps_per_frame * num_points * SIZE_OF_FLOAT else 0
  session_ext + work_buffer + calib_buffer + close_range_buffer

/-- `DistanceMemoryCalculator::rss_heap`. -/
def DistanceMemoryCalculator.rss_heap (c : ConfigView) : ℕ :=
  let sweep_rss := SessionMemoryCalculator.rss_heap c
  let processor_heap := DISTANCE_HEAP_PER_PROCESSOR * 2
  DISTANCE_HEAP_OVERHEAD + processor_heap + sweep_rss

/-- A configuration whose `n` subsweeps are each set to `p` points, with `s`
sweeps per frame: the shape quantified over by the refinement claim. -/
def uniformConfig (p n s : ℕ) : ConfigView :=
  { num_subsweep := n, sweeps_per_frame := s, subsweep_num_points := fun _ => p }

/-! ## Radar configuration mutation guards (`src/config.rs`)

`RadarConfig` wraps an opaque engine configuration object; the getters it
consults in `set_continuous_sweep_mode` are `frame_rate()`, `sweep_rate()`,
`inter_frame_idle_state()` and `inter_sweep_idle_state()`.  The engine-side
state is modelled as the record of the raw values those FFI getters return;
the two `f32` rates are modelled as rationals (the code only compares them
with zero, no arithmetic is performed on them). -/

/-- `RadarIdleState` from `src/config.rs`. -/
inductive RadarIdleState where
  | DeepSleep
  | Sleep
  | Ready
  deriving DecidableEq, Repr

/-- `RadarIdleState::from_ffi`. -/
def RadarIdleState.from_ffi (value : ℕ) : Option RadarIdleState :=
  match value with
  | 0 => some .DeepSleep
  | 1 => some .Sleep
  | 2 => some .Ready
  | _ => none

/-- `FrameRate` from `src/config/frame_rate.rs`. -/
inductive FrameRate where
  | Unlimited
  | Limited (rate : ℚ)
  deriving DecidableEq, Repr

/-- `FrameRate::is_limited`. -/
def FrameRate.is_limited : FrameRate → Bool
  | .Unlimited => false
  | .Limited _ => true

/-- The engine configuration fields touched by the continuous-sweep-mode
logic: raw values held by the `acc_config_t` object. -/
structure AccConfig where
  frame_rate_raw : ℚ
  sweep_rate_raw : ℚ
  inter_frame_idle_raw : ℕ
  inter_sweep_idle_raw : ℕ
  continuous_sweep_mode : Bool
  deriving DecidableEq, Repr

/-- `RadarConfig::frame_rate()`: `Unlimited` iff the raw engine value is
zero. -/
def RadarConfig.frame_rate (c : AccConfig) : FrameRate :=
  if c.frame_rate_raw = 0 then .Unlimited else .Limited c.frame_rate_raw

/-- `RadarConfig::sweep_rate()`. -/
def RadarConfig.sweep_rate (c : AccConfig) : ℚ := c.sweep_rate_raw

/-- `RadarConfig::inter_frame_idle_state()`: decodes the raw value, defaulting
to `DeepSleep`. -/
def RadarConfig.inter_frame_idle_state (c : AccConfig) : RadarIdleState :=
  (RadarIdleState.from_ffi c.inter_frame_idle_raw).getD .DeepSleep

/-- `RadarConfig::inter_sweep_idle_state()`. -/
def RadarConfig.inter_sweep_idle_state (c : AccConfig) : RadarIdleState :=
  (RadarIdleState.from_ffi c.inter_sweep_idle_raw).getD .DeepSleep

/-- `RadarConfig::is_continuous_sweep_mode_enabled()`. -/
def RadarConfig.is_continuous_sweep_mode_enabled (c : AccConfig) : Bool :=
  c.continuous_sweep_mode

/-- `RadarConfig::set_continuous_sweep_mode(enabled)`: the three constraint
checks guard the engine call `acc_config_continuous_sweep_mode_set`; on any
violation the function returns `ContinuousSweepMode` before that call, so the
configuration state is returned unchanged. -/
def RadarConfig.set_continuous_sweep_mode (enabled : Bool) (c : AccConfig) :
    Except ConfigError Unit × AccConfig :=
  if enabled then
    if (RadarConfig.frame_rate c).is_limited then (.error .ContinuousSweepMode, c)
    else if RadarConfig.sweep_rate c = 0 then (.error .ContinuousSweepMode, c)
    else if RadarConfig.inter_frame_idle_state c ≠ RadarConfig.inter_sweep_idle_state c then
      (.error .ContinuousSweepMode, c)
    else (.ok (), { c with continuous_sweep_mode := enabled })
  else (.ok (), { c with continuous_sweep_mode := enabled })

/-! ## Sensor calibration protocol (`src/sensor.rs`, lines 161-200)

`acc_sensor_calibrate` is modelled by an oracle `eng : ℕ → Bool × Bool`
giving, for the k-th invocation within one `calibrate` call, the primitive's
return value (`calibration_attempt`) and the value it writes through the
`calibration_status` out-pointer ("complete").  The model records the outcome,
the number of primitive invocations and the number of interrupt waits, so the
protocol shape is provable, not just the result. -/

/-- Observable outcome of one `Sensor::<Enabled, SINT>::calibrate` call:
the returned `Result` (with the final `self.calibrated` flag in place of the
opaque `CalibrationResult` blob), the number of `acc_sensor_calibrate`
invocations, and the number of interrupt-edge waits. -/
structure SensorCalOutcome where
  result : Except SensorError Bool
  primCalls : ℕ
  waits : ℕ
  deriving Repr

/-- `Sensor::<Enabled, SINT>::calibrate(buffer)`: issue the primitive once;
on `false` return `FailedCalibration` (the `CalibrationFailed` kind); if it
succeeded but reported "not yet complete", wait for the interrupt edge and
issue the primitive once more with the same buffer, then return `Ok` with
whatever completion status the second call wrote — the second call's own
success flag is discarded and no further retry happens. -/
def Sensor.calibrate (eng : ℕ → Bool × Bool) : SensorCalOutcome :=
  let calibration_attempt := (eng 0).1
  let calibration_status := (eng 0).2
  if calibration_attempt then
    if ¬calibration_status then
      let calibration_status₂ := (eng 1).2
      { result := .ok calibration_status₂, primCalls := 2, waits := 1 }
    else
      { result := .ok calibration_status, primCalls := 1, waits := 0 }
  else
    { result := .error .CalibrationFailed, primCalls := 1, waits := 0 }

/-! ## Distance detector calibration loop (`src/detector/distance.rs`)

`calibrate_detector` loops the primitive `acc_detector_distance_calibrate`
until the engine reports failure or completion, waiting for the interrupt
edge between consecutive attempts.  The loop has no bound in the source, so
it is modelled with explicit fuel: `result = none` means the loop is still
running (suspended on the interrupt) after `fuel` iterations. -/

/-- Outcome of a (possibly still-looping) detector operation: `result = none`
means no return after the given fuel; `primCalls` counts invocations of the
operation's own engine primitive. -/
structure OpOutcome (ε α : Type) where
  result : Option (Except ε α)
  primCalls : ℕ
  deriving Repr

/-- The `loop { attempt; if !attempt return Err(CalibrationFailed); if
complete break; wait-for-interrupt }` body of `calibrate_detector` (and of
`calibrate_detector_unchecked`). -/
def distCalLoop (eng : ℕ → Bool × Bool) : ℕ → OpOutcome SensorError Unit
  | 0 => { result := none, primCalls := 0 }
  | fuel + 1 =>
    let calibration_attempt := (eng 0).1
    let calibration_complete := (eng 0).2
    if ¬calibration_attempt then
      { result := some (.error .CalibrationFailed), primCalls := 1 }
    else if calibration_complete then
      { result := some (.ok ()), primCalls := 1 }
    else
      let rest := distCalLoop (fun i => eng (i + 1)) fuel
      { result := rest.result, primCalls := rest.primCalls + 1 }

/-! ## Checked detector operations (`src/detector/distance.rs`,
`src/detector/presence.rs`)

`DistanceSizes::new` queries the engine (`acc_detector_distance_get_sizes`)
for the two required byte counts; they are modelled as a record parameter.
Each checked operation compares the caller's buffer lengths against them and
returns `BufferTooSmall` before its consuming primitive is ever invoked;
otherwise it runs the corresponding unchecked body. -/

/-- `DistanceSizes` from `src/detector/distance/results.rs`: the engine's
answer to `acc_detector_distance_get_sizes`. -/
structure DistanceSizes where
  buffer_size : ℕ
  detector_cal_result_static_size : ℕ
  deriving DecidableEq, Repr

/-- `RadarDistanceDetector::calibrate_detector(sensor_cal_result, buffer,
detector_cal_result_static)`: buffer validation, then the interrupt-gated
calibration loop. -/
def RadarDistanceDetector.calibrate_detector (distances : DistanceSizes)
    (bufferLen staticLen : ℕ) (eng : ℕ → Bool × Bool) (fuel : ℕ) :
    OpOutcome SensorError Unit :=
  if bufferLen < distances.buffer_size ∨
      staticLen < distances.detector_cal_result_static_size then
    { result := some (.error .BufferTooSmall), primCalls := 0 }
  else
    distCalLoop eng fuel

/-- The `while !calibration_complete { wait-for-interrupt; call primitive }`
loop of `update_calibration_unchecked`; subsequent calls' success flags are
ignored, only the written completion flag steers the loop. -/
def updCalWhile (eng : ℕ → Bool × Bool) (complete : Bool) :
    ℕ → OpOutcome SensorError Unit
  | 0 =>
    if complete then { result := some (.ok ()), primCalls := 0 }
    else { result := none, primCalls := 0 }
  | fuel + 1 =>
    if complete then { result := some (.ok ()), primCalls := 0 }
    else
      let complete₂ := (eng 0).2
      let rest := updCalWhile (fun i => eng (i + 1)) complete₂ fuel
      { result := rest.result, primCalls := rest.primCalls + 1 }

/-- `RadarDistanceDetector::update_calibration_unchecked`: one primitive call;
on `false` return `CalibrationFailed`, otherwise loop on the completion
flag. -/
def RadarDistanceDetector.update_calibration_unchecked (eng : ℕ → Bool × Bool)
    (fuel : ℕ) : OpOutcome SensorError Unit :=
  let calibration_attempt := (eng 0).1
  let calibration_complete := (eng 0).2
  if calibration_attempt then
    let rest := updCalWhile (fun i => eng (i + 1)) calibration_complete fuel
    { result := rest.result, primCalls := rest.primCalls + 1 }
  else
    { result := some (.error .CalibrationFailed), primCalls := 1 }

/-- `RadarDistanceDetector::update_calibration`: buffer validation, then the
unchecked body. -/
def RadarDistanceDetector.update_calibration (distances : DistanceSizes)
    (bufferLen : ℕ) (eng : ℕ → Bool × Bool) (fuel : ℕ) :
    OpOutcome SensorError Unit :=
  if bufferLen < distances.buffer_size then
    { result := some (.error .BufferTooSmall), primCalls := 0 }
  else
    RadarDistanceDetector.update_calibration_unchecked eng fuel

/-- `RadarDistanceDetector::prepare_detector_unchecked`: one synchronous
`acc_detector_distance_prepare` call. -/
def RadarDistanceDetector.prepare_detector_unchecked (engOk : Bool) :
    OpOutcome SensorError Unit :=
  if engOk then { result := some (.ok ()), primCalls := 1 }
  else { result := some (.error .PrepareFailed), primCalls := 1 }

/-- `RadarDistanceDetector::prepare_detector`: buffer validation, then the
unchecked body. -/
def RadarDistanceDetector.prepare_detector (distances : DistanceSizes)
    (bufferLen : ℕ) (engOk : Bool) : OpOutcome SensorError Unit :=
  if bufferLen < distances.buffer_size then
    { result := some (.error .BufferTooSmall), primCalls := 0 }
  else
    RadarDistanceDetector.prepare_detector_unchecked engOk

/-- `RadarDistanceDetector::process_data_unchecked`: one
`acc_detector_distance_process` call returning a success flag and a
result-available flag. -/
def RadarDistanceDetector.process_data_unchecked (eng : Bool × Bool) :
    OpOutcome ProcessDataError Unit :=
  let process_attempt := eng.1
  let result_available := eng.2
  if process_attempt then
    if result_available then { result := some (.ok ()), primCalls := 1 }
    else { result := some (.error .Unavailable), primCalls := 1 }
  else
    { result := some (.error .ProcessingFailed), primCalls := 1 }

/-- `RadarDistanceDetector::process_data`: buffer validation, then the
unchecked body. -/
def RadarDistanceDetector.process_data (distances : DistanceSizes)
    (bufferLen staticLen : ℕ) (eng : Bool × Bool) :
    OpOutcome ProcessDataError Unit :=
  if bufferLen < distances.buffer_size ∨
      staticLen < distances.detector_cal_result_static_size then
    { result := some (.error .BufferTooSmall), primCalls := 0 }
  else
    RadarDistanceDetector.process_data_unchecked eng

/-- `PresenceDetector::detect_presence_unchecked`: one
`acc_detector_presence_process` call. -/
def PresenceDetector.detect_presence_unchecked (engOk : Bool) :
    OpOutcome ProcessDataError Unit :=
  if engOk then { result := some (.ok ()), primCalls := 1 }
  else { result := some (.error .ProcessingFailed), primCalls := 1 }

/-- `PresenceDetector::detect_presence`: validates the buffer against the
engine-reported `get_buffer_size()` minimum, then runs the unchecked body. -/
def PresenceDetector.detect_presence (get_buffer_size : ℕ) (bufferLen : ℕ)
    (engOk : Bool) : OpOutcome ProcessDataError Unit :=
  if bufferLen < get_buffer_size then
    { result := some (.error .BufferTooSmall), primCalls := 0 }
  else
    PresenceDetector.detect_presence_unchecked engOk

/-! ## Lifecycle state machine (`src/radar.rs`)

The source encodes the state (`Enabled` / `Ready` / `Hibernating`) as a
phantom type parameter of `Radar`; the model carries it as an explicit
`phase` field, and each transition takes a proof that the receiver is in the
state on which the Rust `impl` block defines it (mirroring that the method is
not callable otherwise).  The host-side fields of `Radar` — `id`, `config`,
`sensor`, `processing`, `interrupt`, `_hal` — are opaque payloads; every
transition either moves them unchanged into the new typed value or gives the
whole original value back inside `TransitionError`.  Engine-side mutation
(inside the opaque sensor object) is outside the host state, matching the
claim's "modulo engine-internal state". -/

/-- The three radar lifecycle states of `src/radar.rs`. -/
inductive RadarPhase where
  | Enabled
  | Ready
  | Hibernating
  deriving DecidableEq, Repr

/-- The `Radar` struct of `src/radar.rs` with its phantom state made an
explicit field and its host-side payloads opaque. -/
structure Radar where
  phase : RadarPhase
  id : ℕ
  config : ℕ
  sensor : ℕ
  processing : ℕ
  interrupt : ℕ
  hal : ℕ
  deriving DecidableEq, Repr

/-- `TransitionError` from `src/radar.rs`: the failed transition hands the
original radar back together with the error kind. -/
structure TransitionError where
  radar : Radar
  error : SensorError
  deriving DecidableEq, Repr

/-- `Radar::new(id, spi, interrupt, enable_pin, delay)`: powers the sensor
on, registers the HAL, builds config/sensor/processing and yields the
`Enabled`-typed value.  The payload arguments stand for the constructed
host-side objects. -/
def Radar.new (id config sensor processing interrupt hal : ℕ) : Radar :=
  { phase := .Enabled, id := id, config := config, sensor := sensor,
    processing := processing, interrupt := interrupt, hal := hal }

/-- `Radar::<Enabled>::prepare_sensor(calibration_result)`: on engine success
(`acc_sensor_prepare` via `Sensor::prepare`) every field moves unchanged into
the `Ready`-typed value; on failure the original object comes back in
`TransitionError` with `PrepareFailed`. -/
def Radar.prepare_sensor (engOk : Bool) (r : Radar)
    (_ : r.phase = RadarPhase.Enabled) : Except TransitionError Radar :=
  if engOk then .ok { r with phase := .Ready }
  else .error { radar := r, error := .PrepareFailed }

/-- `Radar::<Ready>::hibernate_on()`: on engine success every field moves
unchanged into the `Hibernating`-typed value; on failure the original object
comes back with `HibernationOnFailed`. -/
def Radar.hibernate_on (engOk : Bool) (r : Radar)
    (_ : r.phase = RadarPhase.Ready) : Except TransitionError Radar :=
  if engOk then .ok { r with phase := .Hibernating }
  else .error { radar := r, error := .HibernationOnFailed }

/-- `Radar::<Hibernating>::hibernate_off()`: on engine success every field
moves unchanged into the `Ready`-typed value; on failure the original object
comes back with `HibernationOffFailed`. -/
def Radar.hibernate_off (engOk : Bool) (r : Radar)
    (_ : r.phase = RadarPhase.Hibernating) : Except TransitionError Radar :=
  if engOk then .ok { r with phase := .Ready }
  else .error { radar := r, error := .HibernationOffFailed }

/-! ### Reachability of `measure` (`src/radar.rs`)

The operations a caller can invoke on a `Radar`, labelled with the engine
success flag where a transition can fail.  `step` is the per-state
availability relation defined by the `impl` blocks of `src/radar.rs`:
`calibrate` and `reset_sensor` live in the generic `impl` (any state, no
transition), `prepare_sensor` only on `Enabled`, `hibernate_on` only on
`Ready`, `hibernate_off` only on `Hibernating`, `measure` only on `Ready`.
`none` means the method does not exist on that state (a compile error at the
call site). -/

/-- Labels for the radar lifecycle operations. -/
inductive RadarOp where
  | calibrate
  | resetSensor
  | prepareSensor (engOk : Bool)
  | hibernateOn (engOk : Bool)
  | hibernateOff (engOk : Bool)
  | measure
  deriving DecidableEq, Repr

/-- Which operations exist in which state, and the state they leave behind
(failed transitions give the original object back, hence the original
state). -/
def RadarOp.step : RadarOp → RadarPhase → Option RadarPhase
  | .calibrate, σ => some σ
  | .resetSensor, σ => some σ
  | .prepareSensor engOk, .Enabled => some (if engOk then .Ready else .Enabled)
  | .prepareSensor _, _ => none
  | .hibernateOn engOk, .Ready => some (if engOk then .Hibernating else .Ready)
  | .hibernateOn _, _ => none
  | .hibernateOff engOk, .Hibernating => some (if engOk then .Ready else .Hibernating)
  | .hibernateOff _, _ => none
  | .measure, .Ready => some .Ready
  | .measure, _ => none

/-- Running a sequence of operations from a state; `none` as soon as one
operation is not defined on the current state. -/
def RadarOp.run (σ : RadarPhase) : List RadarOp → Option RadarPhase
  | [] => some σ
  | op :: ops =>
    match RadarOp.step op σ with
    | none => none
    | some σ' => RadarOp.run σ' ops

/-! ## Detector construction (`src/detector/distance.rs` lines 70-102,
`src/detector/presence.rs` lines 73-101)

Both constructors first check `radar.state() != RadarState::Ready` and bail
out with `NotReady` before any engine call; otherwise they invoke the
detector-create primitive (`acc_detector_distance_create` /
`acc_detector_presence_create`), whose null return aborts via `expect`
(modelled as the `none` outcome).  The second component counts invocations of
the create primitive. -/

/-- Outcome of a detector constructor: `none` models the `expect` panic on a
null engine handle, otherwise the `Result` of the Rust function (an abstract
handle on success). -/
def CtorOutcome := Option (Except SensorError ℕ) × ℕ

/-- `RadarDistanceDetector::new(radar)` / `with_config(radar, config)`:
reject with `NotReady` unless the radar is `Ready`, then create the engine
detector handle. -/
def RadarDistanceDetector.new (radarState : RadarPhase) (engHandle : Option ℕ) :
    CtorOutcome :=
  if radarState ≠ RadarPhase.Ready then (some (.error .NotReady), 0)
  else
    match engHandle with
    | none => (none, 1)
    | some h => (some (.ok h), 1)

/-- `PresenceDetector::new(radar)` / `with_config(radar, config)`: same
shape over `acc_detector_presence_create`. -/
def PresenceDetector.new (radarState : RadarPhase) (engHandle : Option ℕ) :
    CtorOutcome :=
  if radarState ≠ RadarPhase.Ready then (some (.error .NotReady), 0)
  else
    match engHandle with
    | none => (none, 1)
    | some h => (some (.ok h), 1)

/-! ## Helper lemmas -/

/-- The `if buffer_size > CALIB_BUFFER { buffer_size } else { CALIB_BUFFER }`
idiom is a maximum. -/
theorem if_gt_eq_max (a b : ℕ) : (if a > b then a else b) = max a b := by
  split <;> omega

/-- The subsweep accumulation loop over a constant per-subsweep point count. -/
theorem pointsLoop_const (p : ℕ) : ∀ n, pointsLoop (fun _ => p) n = n * p
  | 0 => by simp [pointsLoop]
  | n + 1 => by
    simp [pointsLoop, pointsLoop_const p n]
    ring

/-- Closed form of the compile-time session external-heap formula. -/
theorem calc_session_external_heap_eq (p n s : ℕ) :
    calc_session_external_heap p n s = max (p * n * s * 4) 2492 + 68 := by
  simp [calc_session_external_heap, BYTES_PER_POINT, CALIB_BUFFER, OVERHEAD,
    if_gt_eq_max]

/-- Closed form of the runtime session external-heap computation on a uniform
configuration. -/
theorem session_external_heap_uniform (p n s : ℕ) :
    SessionMemoryCalculator.external_heap (uniformConfig p n s) =
      max (p * n * s * 4) 2492 + 68 := by
  simp [SessionMemoryCalculator.external_heap,
    SessionMemoryCalculator.total_num_points, uniformConfig, pointsLoop_const,
    BYTES_PER_POINT, CALIB_BUFFER, OVERHEAD]
  ring_nf

/-! ## Claim theorems -/

/-- **C8.** For all `(points, subsweeps, sweeps_per_frame)`, the session
external-heap formula is bounded below by the calibration-buffer floor plus
the overhead (`2492 + 68`), and it is monotonically non-decreasing in each of
its three arguments individually. -/
theorem C8_session_external_heap_floor_and_monotone (p p' n n' s s' : ℕ)
    (hp : p ≤ p') (hn : n ≤ n') (hs : s ≤ s') :
    CALIB_BUFFER + OVERHEAD ≤ calc_session_external_heap p n s ∧
    calc_session_external_heap p n s ≤ calc_session_external_heap p' n s ∧
    calc_session_external_heap p n s ≤ calc_session_external_heap p n' s ∧
    calc_session_external_heap p n s ≤ calc_session_external_heap p n s' := by
  have key : ∀ a b : ℕ, a ≤ b →
      max (a * 4) 2492 + 68 ≤ max (b * 4) 2492 + 68 := by
    intro a b hab
    have : a * 4 ≤ b * 4 := Nat.mul_le_mul_right 4 hab
    exact Nat.add_le_add_right (max_le_max this le_rfl) 68
  refine ⟨?_, ?_, ?_, ?_⟩
  · rw [calc_session_external_heap_eq]
    have : (2492 : ℕ) ≤ max (p * n * s * 4) 2492 := Nat.le_max_right _ _
    simp only [CALIB_BUFFER, OVERHEAD]
    omega
  · rw [calc_session_external_heap_eq, calc_session_external_heap_eq]
    exact key _ _ (Nat.mul_le_mul_right s (Nat.mul_le_mul_right n hp))
  · rw [calc_session_external_heap_eq, calc_session_external_heap_eq]
    exact key _ _ (Nat.mul_le_mul_right s (Nat.mul_le_mul_left p hn))
  · rw [calc_session_external_heap_eq, calc_session_external_heap_eq]
    exact key _ _ (Nat.mul_le_mul_left (p * n) hs)

/-- **C8 witness.** The bound and monotonicity instantiated at
`(100, 1, 16) ≤ (200, 2, 32)`. -/
theorem C8_witness :
    (100 ≤ 200 ∧ 1 ≤ 2 ∧ 16 ≤ 32) ∧
    (CALIB_BUFFER + OVERHEAD ≤ calc_session_external_heap 100 1 16 ∧
     calc_session_external_heap 100 1 16 ≤ calc_session_external_heap 200 1 16 ∧
     calc_session_external_heap 100 1 16 ≤ calc_session_external_heap 100 2 16 ∧
     calc_session_external_heap 100 1 16 ≤ calc_session_external_heap 100 1 32) :=
  ⟨by decide,
   C8_session_external_heap_floor_and_monotone 100 200 1 2 16 32
     (by decide) (by decide) (by decide)⟩

/-- **C4 (amended).** On a configuration with `n` subsweeps each set to `p`
points and `s` sweeps per frame: the session calculator agrees with its
const-fn counterpart on both heaps for every `(p, n, s)`; the presence and
distance calculators agree with their const-fn counterparts on the RSS heap
for every `(p, n, s)` (passing the total point count `n * p`); and their
external-heap computations agree whenever `num_subsweeps = 1`.  (For
multiple subsweeps the external-heap equality fails in general — see the
counterexample — because the const formula feeds the *total* point count
back through `calc_session_external_heap`, which multiplies it by the
subsweep count again; the two sides still coincide where both products are
clamped to the calibration-buffer floor.) -/
theorem C4_runtime_vs_const_memory (p n s : ℕ) :
    SessionMemoryCalculator.external_heap (uniformConfig p n s) =
      calc_session_external_heap p n s ∧
    SessionMemoryCalculator.rss_heap (uniformConfig p n s) =
      calc_session_rss_heap n ∧
    PresenceMemoryCalculator.rss_heap (uniformConfig p n s) =
      calc_presence_rss_heap (n * p) n ∧
    DistanceMemoryCalculator.rss_heap (uniformConfig p n s) =
      calc_distance_rss_heap n ∧
    PresenceMemoryCalculator.external_heap (uniformConfig p 1 s) =
      calc_presence_external_heap p 1 s ∧
    DistanceMemoryCalculator.external_heap (uniformConfig p 1 s) =
      calc_distance_external_heap p 1 s := by
  refine ⟨?_, ?_, ?_, ?_, ?_, ?_⟩
  · rw [session_external_heap_uniform, calc_session_external_heap_eq]
  · simp [SessionMemoryCalculator.rss_heap, uniformConfig, calc_session_rss_heap]
  · simp [PresenceMemoryCalculator.rss_heap,
      PresenceMemoryCalculator.total_num_points, uniformConfig, pointsLoop_const,
      SessionMemoryCalculator.rss_heap, calc_presence_rss_heap,
      PRESENCE_HEAP_OVERHEAD, PRESENCE_FILTER_PARAMS, SIZE_OF_FLOAT,
      RSS_HEAP_PER_CONFIG, RSS_HEAP_PER_SUBSWEEP, RSS_HEAP_PER_SENSOR]
    ring
  · simp [DistanceMemoryCalculator.rss_heap, uniformConfig,
      SessionMemoryCalculator.rss_heap, calc_distance_rss_heap,
      DISTANCE_HEAP_OVERHEAD, DISTANCE_HEAP_PER_PROCESSOR,
      RSS_HEAP_PER_CONFIG, RSS_HEAP_PER_SUBSWEEP, RSS_HEAP_PER_SENSOR]
    ring
  · simp [PresenceMemoryCalculator.external_heap,
      PresenceMemoryCalculator.total_num_points, uniformConfig, pointsLoop_const,
      SessionMemoryCalculator.external_heap,
      SessionMemoryCalculator.total_num_points, calc_presence_external_heap,
      calc_session_external_heap_eq, SIZE_OF_FLOAT, BYTES_PER_POINT,
      CALIB_BUFFER, OVERHEAD]
  · simp [DistanceMemoryCalculator.external_heap,
      DistanceMemoryCalculator.total_num_points, uniformConfig, pointsLoop_const,
      SessionMemoryCalculator.external_heap,
      SessionMemoryCalculator.total_num_points, calc_distance_external_heap,
      calc_session_external_heap_eq, SIZE_OF_FLOAT, FILTFILT_PAD_LEN,
      BYTES_PER_POINT, CALIB_BUFFER, OVERHEAD]

/-- **C4 counterexample.** With two subsweeps of `400` points each and one
sweep per frame, the runtime presence and distance external-heap calculators
disagree with their const-fn counterparts, whether the const function is
passed the documented total point count (`800`) or the per-subsweep count
(`400`): the claimed equality on matching inputs is false at this
two-subsweep input. -/
theorem C4_counterexample :
    PresenceMemoryCalculator.external_heap (uniformConfig 400 2 1) = 9668 ∧
    calc_presence_external_heap 800 2 1 = 12868 ∧
    calc_presence_external_heap 400 2 1 = 6468 ∧
    DistanceMemoryCalculator.external_heap (uniformConfig 400 2 1) = 19412 ∧
    calc_distance_external_heap 800 2 1 = 22612 := by
  decide

/-- **C5 (amended).** Every memory-accountant function is total over the
whole unsigned input domain (`u16` points, `u8` subsweeps, `u16` sweeps per
frame) with no error path, and the computed values always fit a 64-bit
address space, so the plain `usize` arithmetic cannot overflow on a 64-bit
target; the arithmetic is ordinary non-saturating arithmetic, which on a
32-bit target wraps modulo `2^32` instead of saturating (see the
counterexample). -/
theorem C5_accountant_total_and_64bit_bounded (p N n s : ℕ)
    (hp : p < 2 ^ 16) (hN : N < 2 ^ 16) (hn : n < 2 ^ 8) (hs : s < 2 ^ 16) :
    calc_session_total p n s < 2 ^ 64 ∧
    calc_presence_total N n s < 2 ^ 64 ∧
    calc_distance_total N n s < 2 ^ 64 ∧
    calc_distance_static_cal_size N < 2 ^ 64 := by
  have hp' : p ≤ 65535 := by omega
  have hN' : N ≤ 65535 := by omega
  have hn' : n ≤ 255 := by omega
  have hs' : s ≤ 65535 := by omega
  have hsess : ∀ a b c : ℕ, a ≤ 65535 → b ≤ 255 → c ≤ 65535 →
      calc_session_external_heap a b c ≤ 65535 * 255 * 65535 * 4 + 2560 := by
    intro a b c ha hb hc
    rw [calc_session_external_heap_eq]
    have habc : a * b * c * 4 ≤ 65535 * 255 * 65535 * 4 :=
      Nat.mul_le_mul_right 4
        (Nat.mul_le_mul (Nat.mul_le_mul ha hb) hc)
    have : max (a * b * c * 4) 2492 ≤ 65535 * 255 * 65535 * 4 + 2492 :=
      max_le (le_trans habc (Nat.le_add_right _ _)) (by omega)
    omega
  have hNs : N * 4 * 3 ≤ 65535 * 12 := by
    have := Nat.mul_le_mul_right 12 hN'
    omega
  have hclose : (if s > 1 then s * N * SIZE_OF_FLOAT else 0) ≤
      65535 * 65535 * 4 := by
    split
    · exact Nat.mul_le_mul (Nat.mul_le_mul hs' hN') (by simp [SIZE_OF_FLOAT])
    · omega
  refine ⟨?_, ?_, ?_, ?_⟩
  · have h1 := hsess p n s hp' hn' hs'
    have h2 : calc_session_rss_heap n ≤ 512 + 255 * 236 + 636 := by
      simp only [calc_session_rss_heap, RSS_HEAP_PER_CONFIG,
        RSS_HEAP_PER_SUBSWEEP, RSS_HEAP_PER_SENSOR]
      have := Nat.mul_le_mul_right 236 hn'
      omega
    simp only [calc_session_total]
    omega
  · have h1 := hsess N n s hN' hn' hs'
    have hpr : N * 2 * SIZE_OF_FLOAT ≤ 65535 * 8 := by
      simp only [SIZE_OF_FLOAT]
      have := Nat.mul_le_mul_right 8 hN'
      omega
    have h2 : calc_presence_rss_heap N n ≤
        256 + 65535 * 28 + 636 + 512 + 255 * 236 := by
      simp only [calc_presence_rss_heap, PRESENCE_HEAP_OVERHEAD,
        PRESENCE_FILTER_PARAMS, SIZE_OF_FLOAT, RSS_HEAP_PER_CONFIG,
        RSS_HEAP_PER_SUBSWEEP, RSS_HEAP_PER_SENSOR]
      have hx : N * 7 * 4 ≤ 65535 * 28 := by
        have := Nat.mul_le_mul_right 28 hN'
        omega
      have hy := Nat.mul_le_mul_right 236 hn'
      omega
    simp only [calc_presence_total, calc_presence_external_heap,
      SIZE_OF_FLOAT] at *
    omega
  · have h1 := hsess N n s hN' hn' hs'
    have hwork : (N + 2 * FILTFILT_PAD_LEN) * 2 * SIZE_OF_FLOAT ≤
        (65535 + 18) * 8 := by
      simp only [FILTFILT_PAD_LEN, SIZE_OF_FLOAT]
      have : N + 2 * 9 ≤ 65535 + 18 := by omega
      have := Nat.mul_le_mul_right 8 this
      omega
    have h2 : calc_distance_rss_heap n ≤
        1028 + 448 + 636 + 512 + 255 * 236 := by
      simp only [calc_distance_rss_heap, DISTANCE_HEAP_OVERHEAD,
        DISTANCE_HEAP_PER_PROCESSOR, RSS_HEAP_PER_CONFIG,
        RSS_HEAP_PER_SUBSWEEP, RSS_HEAP_PER_SENSOR]
      have := Nat.mul_le_mul_right 236 hn'
      omega
    simp only [calc_distance_total, calc_distance_external_heap,
      SIZE_OF_FLOAT] at *
    omega
  · simp only [calc_distance_static_cal_size, SIZE_OF_FLOAT,
      DISTANCE_MIN_STATIC_CAL_SIZE]
    have : N * 4 * 2 ≤ 65535 * 8 := by
      have := Nat.mul_le_mul_right 8 hN'
      omega
    split <;> omega

/-- **C5 witness.** The bounds instantiated at the extreme admissible input
`(65535, 65535, 255, 65535)`. -/
theorem C5_witness :
    (65535 < 2 ^ 16 ∧ 255 < 2 ^ 8) ∧
    (calc_session_total 65535 255 65535 < 2 ^ 64 ∧
     calc_presence_total 65535 255 65535 < 2 ^ 64 ∧
     calc_distance_total 65535 255 65535 < 2 ^ 64 ∧
     calc_distance_static_cal_size 65535 < 2 ^ 64) :=
  ⟨by decide,
   C5_accountant_total_and_64bit_bounded 65535 65535 255 65535
     (by decide) (by decide) (by decide) (by decide)⟩

/-- **C5 counterexample.** At `(65535, 255, 65535)` the exact session
external-heap value exceeds the 32-bit address space, and the value a 32-bit
release build computes is the wrapped value — not the saturated value
`2^32 - 1` and not the exact value: the arithmetic wraps, it does not
saturate. -/
theorem C5_counterexample :
    2 ^ 32 - 1 < calc_session_external_heap 65535 255 65535 ∧
    calc_session_external_heap_u32 65535 255 65535 ≠ 2 ^ 32 - 1 ∧
    calc_session_external_heap_u32 65535 255 65535 ≠
      calc_session_external_heap 65535 255 65535 := by
  decide

/-- **C10.** For every configuration, attempting to enable continuous sweep
mode while the frame rate is limited, or while the sweep rate is zero, or
while the inter-frame and inter-sweep idle states differ, is rejected with a
`ContinuousSweepMode` error, the engine setter is never reached, and the
configuration is left unchanged — in particular
`is_continuous_sweep_mode_enabled()` keeps its prior value. -/
theorem C10_continuous_sweep_mode_rejected (c : AccConfig)
    (h : (RadarConfig.frame_rate c).is_limited = true ∨
      RadarConfig.sweep_rate c = 0 ∨
      RadarConfig.inter_frame_idle_state c ≠ RadarConfig.inter_sweep_idle_state c) :
    RadarConfig.set_continuous_sweep_mode true c =
      (.error .ContinuousSweepMode, c) ∧
    RadarConfig.is_continuous_sweep_mode_enabled
        (RadarConfig.set_continuous_sweep_mode true c).2 =
      RadarConfig.is_continuous_sweep_mode_enabled c := by
  have hrej : RadarConfig.set_continuous_sweep_mode true c =
      (.error .ContinuousSweepMode, c) := by
    unfold RadarConfig.set_continuous_sweep_mode
    rcases h with h | h | h
    · simp [h]
    · by_cases hfr : (RadarConfig.frame_rate c).is_limited = true
      · simp [hfr]
      · simp [hfr, h]
    · by_cases hfr : (RadarConfig.frame_rate c).is_limited = true
      · simp [hfr]
      · by_cases hsw : RadarConfig.sweep_rate c = 0
        · simp [hfr, hsw]
        · simp [hfr, hsw, h]
  exact ⟨hrej, by rw [hrej]⟩

/-- **C10 witness.** A configuration with a limited frame rate (raw engine
frame rate `1`), continuous sweep mode currently off: enabling continuous
sweep mode is rejected and the flag keeps its prior value. -/
theorem C10_witness :
    ((RadarConfig.frame_rate
        { frame_rate_raw := 1, sweep_rate_raw := 1, inter_frame_idle_raw := 0,
          inter_sweep_idle_raw := 0, continuous_sweep_mode := false }).is_limited = true ∨
      RadarConfig.sweep_rate
        { frame_rate_raw := 1, sweep_rate_raw := 1, inter_frame_idle_raw := 0,
          inter_sweep_idle_raw := 0, continuous_sweep_mode := false } = 0 ∨
      RadarConfig.inter_frame_idle_state
        { frame_rate_raw := 1, sweep_rate_raw := 1, inter_frame_idle_raw := 0,
          inter_sweep_idle_raw := 0, continuous_sweep_mode := false } ≠
        RadarConfig.inter_sweep_idle_state
        { frame_rate_raw := 1, sweep_rate_raw := 1, inter_frame_idle_raw := 0,
          inter_sweep_idle_raw := 0, continuous_sweep_mode := false }) ∧
    (RadarConfig.set_continuous_sweep_mode true
        { frame_rate_raw := 1, sweep_rate_raw := 1, inter_frame_idle_raw := 0,
          inter_sweep_idle_raw := 0, continuous_sweep_mode := false } =
      (.error .ContinuousSweepMode,
        { frame_rate_raw := 1, sweep_rate_raw := 1, inter_frame_idle_raw := 0,
          inter_sweep_idle_raw := 0, continuous_sweep_mode := false }) ∧
     RadarConfig.is_continuous_sweep_mode_enabled
        (RadarConfig.set_continuous_sweep_mode true
          { frame_rate_raw := 1, sweep_rate_raw := 1, inter_frame_idle_raw := 0,
            inter_sweep_idle_raw := 0, continuous_sweep_mode := false }).2 =
      RadarConfig.is_continuous_sweep_mode_enabled
        { frame_rate_raw := 1, sweep_rate_raw := 1, inter_frame_idle_raw := 0,
          inter_sweep_idle_raw := 0, continuous_sweep_mode := false }) :=
  ⟨Or.inl (by decide),
   C10_continuous_sweep_mode_rejected _ (Or.inl (by decide))⟩

/-- **C2.** For every checked buffer-consuming detector operation
(`calibrate_detector`, `update_calibration`, `prepare_detector`,
`process_data`, `detect_presence`) and every data buffer strictly shorter
than the queried minimum size, the call returns `BufferTooSmall` and the
operation's engine primitive is never invoked (zero primitive calls). -/
theorem C2_short_buffer_rejected_without_engine_call (distances : DistanceSizes)
    (get_buffer_size bufferLen staticLen : ℕ) (eng : ℕ → Bool × Bool)
    (eng2 : Bool × Bool) (engOk engOk2 : Bool) (fuel : ℕ)
    (hbuf : bufferLen < distances.buffer_size)
    (hbq : bufferLen < get_buffer_size) :
    RadarDistanceDetector.calibrate_detector distances bufferLen staticLen eng fuel =
      { result := some (.error .BufferTooSmall), primCalls := 0 } ∧
    RadarDistanceDetector.update_calibration distances bufferLen eng fuel =
      { result := some (.error .BufferTooSmall), primCalls := 0 } ∧
    RadarDistanceDetector.prepare_detector distances bufferLen engOk =
      { result := some (.error .BufferTooSmall), primCalls := 0 } ∧
    RadarDistanceDetector.process_data distances bufferLen staticLen eng2 =
      { result := some (.error .BufferTooSmall), primCalls := 0 } ∧
    PresenceDetector.detect_presence get_buffer_size bufferLen engOk2 =
      { result := some (.error .BufferTooSmall), primCalls := 0 } := by
  refine ⟨?_, ?_, ?_, ?_, ?_⟩
  · simp [RadarDistanceDetector.calibrate_detector, hbuf]
  · simp [RadarDistanceDetector.update_calibration, hbuf]
  · simp [RadarDistanceDetector.prepare_detector, hbuf]
  · simp [RadarDistanceDetector.process_data, hbuf]
  · simp [PresenceDetector.detect_presence, hbq]

/-- **C2 witness.** Engine-reported minima `buffer_size = 100`,
`detector_cal_result_static_size = 50`, `get_buffer_size = 100`, and a data
buffer of length `99` — one byte shorter than the minimum: every checked
operation returns `BufferTooSmall` with zero engine-primitive calls. -/
theorem C2_witness :
    ((99 : ℕ) < 100 ∧ (99 : ℕ) < 100) ∧
    (RadarDistanceDetector.calibrate_detector
        { buffer_size := 100, detector_cal_result_static_size := 50 } 99 50
        (fun _ => (true, true)) 5 =
      { result := some (.error .BufferTooSmall), primCalls := 0 } ∧
     RadarDistanceDetector.update_calibration
        { buffer_size := 100, detector_cal_result_static_size := 50 } 99
        (fun _ => (true, true)) 5 =
      { result := some (.error .BufferTooSmall), primCalls := 0 } ∧
     RadarDistanceDetector.prepare_detector
        { buffer_size := 100, detector_cal_result_static_size := 50 } 99 true =
      { result := some (.error .BufferTooSmall), primCalls := 0 } ∧
     RadarDistanceDetector.process_data
        { buffer_size := 100, detector_cal_result_static_size := 50 } 99 50
        (true, true) =
      { result := some (.error .BufferTooSmall), primCalls := 0 } ∧
     PresenceDetector.detect_presence 100 99 true =
      { result := some (.error .BufferTooSmall), primCalls := 0 }) :=
  ⟨⟨by decide, by decide⟩,
   C2_short_buffer_rejected_without_engine_call
     { buffer_size := 100, detector_cal_result_static_size := 50 }
     100 99 50 (fun _ => (true, true)) (true, true) true true 5
     (by decide) (by decide)⟩

/-- **C9.** Construction of a distance or presence detector over a radar that
is not in the `Ready` state fails with `NotReady` by a runtime check and the
engine detector-create primitive is never invoked (zero create calls); over a
`Ready` radar, construction succeeds with the engine-provided handle. -/
theorem C9_detector_construction_requires_ready (st : RadarPhase)
    (engHandle : Option ℕ) (h : ℕ) (hst : st ≠ RadarPhase.Ready) :
    RadarDistanceDetector.new st engHandle = (some (.error .NotReady), 0) ∧
    PresenceDetector.new st engHandle = (some (.error .NotReady), 0) ∧
    RadarDistanceDetector.new RadarPhase.Ready (some h) = (some (.ok h), 1) ∧
    PresenceDetector.new RadarPhase.Ready (some h) = (some (.ok h), 1) := by
  refine ⟨?_, ?_, ?_, ?_⟩
  · simp [RadarDistanceDetector.new, hst]
  · simp [PresenceDetector.new, hst]
  · simp [RadarDistanceDetector.new]
  · simp [PresenceDetector.new]

/-- **C9 witness.** A radar observed in `Enabled`: both detector constructors
reject with `NotReady` without touching the engine; on `Ready` they succeed
with handle `7`. -/
theorem C9_witness :
    RadarPhase.Enabled ≠ RadarPhase.Ready ∧
    (RadarDistanceDetector.new RadarPhase.Enabled (some 7) =
        (some (.error .NotReady), 0) ∧
     PresenceDetector.new RadarPhase.Enabled (some 7) =
        (some (.error .NotReady), 0) ∧
     RadarDistanceDetector.new RadarPhase.Ready (some 7) = (some (.ok 7), 1) ∧
     PresenceDetector.new RadarPhase.Ready (some 7) = (some (.ok 7), 1)) :=
  ⟨by decide,
   C9_detector_construction_requires_ready RadarPhase.Enabled (some 7) 7
     (by decide)⟩

/-- While the engine keeps reporting "attempt succeeded, not complete", the
detector calibration loop keeps reissuing the primitive (one call per fuel
unit) and never returns. -/
theorem distCalLoop_pending (eng : ℕ → Bool × Bool)
    (h : ∀ i, eng i = (true, false)) :
    ∀ fuel, distCalLoop eng fuel = { result := none, primCalls := fuel } := by
  intro fuel
  induction fuel generalizing eng with
  | zero => rfl
  | succ n ih =>
    have h0 := h 0
    simp [distCalLoop, h0, ih (fun i => eng (i + 1)) (fun i => h (i + 1))]

/-- If the engine reports "not complete" for the first `j` attempts and
"complete" on attempt `j`, the loop returns `Ok` after exactly `j + 1`
primitive calls (given enough fuel). -/
theorem distCalLoop_completes (eng : ℕ → Bool × Bool) (j : ℕ)
    (hpre : ∀ i < j, eng i = (true, false)) (hj : eng j = (true, true)) :
    ∀ fuel, j < fuel →
      distCalLoop eng fuel = { result := some (.ok ()), primCalls := j + 1 } := by
  induction j generalizing eng with
  | zero =>
    intro fuel hfuel
    match fuel, hfuel with
    | n + 1, _ => simp [distCalLoop, hj]
  | succ j ih =>
    intro fuel hfuel
    match fuel, hfuel with
    | n + 1, hn =>
      have h0 := hpre 0 (Nat.succ_pos j)
      have hrest := ih (fun i => eng (i + 1))
        (fun i hi => hpre (i + 1) (Nat.succ_lt_succ hi)) hj n
        (Nat.lt_of_succ_lt_succ hn)
      simp [distCalLoop, h0, hrest]

/-- If the engine reports "not complete" for the first `j` attempts and the
attempt itself fails on attempt `j`, the loop returns `CalibrationFailed`
after exactly `j + 1` primitive calls (given enough fuel). -/
theorem distCalLoop_fails (eng : ℕ → Bool × Bool) (j : ℕ)
    (hpre : ∀ i < j, eng i = (true, false)) (hj : (eng j).1 = false) :
    ∀ fuel, j < fuel →
      distCalLoop eng fuel =
        { result := some (.error .CalibrationFailed), primCalls := j + 1 } := by
  induction j generalizing eng with
  | zero =>
    intro fuel hfuel
    match fuel, hfuel with
    | n + 1, _ => simp [distCalLoop, hj]
  | succ j ih =>
    intro fuel hfuel
    match fuel, hfuel with
    | n + 1, hn =>
      have h0 := hpre 0 (Nat.succ_pos j)
      have hrest := ih (fun i => eng (i + 1))
        (fun i hi => hpre (i + 1) (Nat.succ_lt_succ hi)) hj n
        (Nat.lt_of_succ_lt_succ hn)
      simp [distCalLoop, h0, hrest]

/-- **C1 counterexample.** With the engine forever answering "attempt
succeeded, calibration not yet complete", `Sensor::<Enabled>::calibrate`
does *not* loop until completion or failure: it returns `Ok` with the
completion flag still `false` after exactly two primitive calls and one
interrupt wait.  And when the second attempt reports failure, its failure
flag is discarded: the call still returns `Ok`. -/
theorem C1_counterexample :
    Sensor.calibrate (fun _ => (true, false)) =
      { result := .ok false, primCalls := 2, waits := 1 } ∧
    Sensor.calibrate (fun i => if i = 0 then (true, false) else (false, false)) =
      { result := .ok false, primCalls := 2, waits := 1 } :=
  ⟨rfl, rfl⟩

/-- **C1 (amended).** The iterative interrupt-gated calibration protocol is
implemented by the detector calibration loop (`calibrate_detector`): a failed
attempt returns `CalibrationFailed`, an incomplete attempt suspends on the
interrupt edge and reissues the same primitive, and the loop continues
without error for as long as the engine keeps reporting "not complete",
terminating exactly when the engine reports complete or an attempt fails.
`Sensor::<Enabled>::calibrate`, by contrast, issues the primitive at most
twice: a first failed attempt returns `CalibrationFailed`; a complete first
attempt returns `Ok`; an incomplete first attempt waits for one interrupt
edge, retries once, and returns `Ok` carrying whatever completion status the
retry reported (its failure flag is ignored), leaving further retries to the
caller. -/
theorem C1_calibration_protocol (engA engB engC engD engE engF : ℕ → Bool × Bool)
    (j fuel : ℕ)
    (hA : (engA 0).1 = false)
    (hB : engB 0 = (true, true))
    (hC : engC 0 = (true, false))
    (hD : ∀ i, engD i = (true, false))
    (hE1 : ∀ i < j, engE i = (true, false)) (hE2 : engE j = (true, true))
    (hF1 : ∀ i < j, engF i = (true, false)) (hF2 : (engF j).1 = false)
    (hfuel : j < fuel) :
    Sensor.calibrate engA =
      { result := .error .CalibrationFailed, primCalls := 1, waits := 0 } ∧
    Sensor.calibrate engB = { result := .ok true, primCalls := 1, waits := 0 } ∧
    Sensor.calibrate engC =
      { result := .ok (engC 1).2, primCalls := 2, waits := 1 } ∧
    (distCalLoop engD fuel).result = none ∧
    distCalLoop engE fuel = { result := some (.ok ()), primCalls := j + 1 } ∧
    distCalLoop engF fuel =
      { result := some (.error .CalibrationFailed), primCalls := j + 1 } := by
  refine ⟨?_, ?_, ?_, ?_, ?_, ?_⟩
  · simp [Sensor.calibrate, hA]
  · simp [Sensor.calibrate, hB]
  · simp [Sensor.calibrate, hC]
  · rw [distCalLoop_pending engD hD fuel]
  · exact distCalLoop_completes engE j hE1 hE2 fuel hfuel
  · exact distCalLoop_fails engF j hF1 hF2 fuel hfuel

/-- **C1 witness.** Concrete engine traces: an immediate failure, an
immediate completion, a two-step sensor calibration, a never-completing
loop, a loop completing on the third attempt, and a loop failing on the
third attempt. -/
theorem C1_witness :
    ((fun _ : ℕ => (false, false)) 0).1 = false ∧
    (fun _ : ℕ => ((true : Bool), (true : Bool))) 0 = (true, true) ∧
    (fun _ : ℕ => ((true : Bool), (false : Bool))) 0 = (true, false) ∧
    (∀ i : ℕ, (fun _ : ℕ => ((true : Bool), (false : Bool))) i = (true, false)) ∧
    (∀ i < 2, (fun k : ℕ => if k < 2 then ((true : Bool), (false : Bool)) else (true, true)) i
        = (true, false)) ∧
    (fun k : ℕ => if k < 2 then ((true : Bool), (false : Bool)) else (true, true)) 2
        = (true, true) ∧
    (∀ i < 2, (fun k : ℕ => if k < 2 then ((true : Bool), (false : Bool)) else (false, false)) i
        = (true, false)) ∧
    ((fun k : ℕ => if k < 2 then ((true : Bool), (false : Bool)) else (false, false)) 2).1
        = false ∧
    (2 : ℕ) < 5 ∧
    (Sensor.calibrate (fun _ => (false, false)) =
      { result := .error .CalibrationFailed, primCalls := 1, waits := 0 } ∧
     Sensor.calibrate (fun _ => (true, true)) =
      { result := .ok true, primCalls := 1, waits := 0 } ∧
     Sensor.calibrate (fun _ => (true, false)) =
      { result := .ok ((fun _ : ℕ => ((true : Bool), (false : Bool))) 1).2,
        primCalls := 2, waits := 1 } ∧
     (distCalLoop (fun _ => (true, false)) 5).result = none ∧
     distCalLoop (fun k => if k < 2 then (true, false) else (true, true)) 5 =
      { result := some (.ok ()), primCalls := 3 } ∧
     distCalLoop (fun k => if k < 2 then (true, false) else (false, false)) 5 =
      { result := some (.error .CalibrationFailed), primCalls := 3 }) := by
  refine ⟨rfl, rfl, rfl, fun i => rfl, ?_, rfl, ?_, rfl, by decide, ?_⟩
  · intro i hi
    interval_cases i <;> rfl
  · intro i hi
    interval_cases i <;> rfl
  · exact C1_calibration_protocol (fun _ => (false, false)) (fun _ => (true, true))
      (fun _ => (true, false)) (fun _ => (true, false))
      (fun k => if k < 2 then (true, false) else (true, true))
      (fun k => if k < 2 then (true, false) else (false, false)) 2 5
      rfl rfl rfl (fun i => rfl)
      (fun i hi => by interval_cases i <;> rfl) rfl
      (fun i hi => by interval_cases i <;> rfl) rfl
      (by decide)

/-- **C3.** `hibernate_off` on a `Hibernating` radar yields, on engine
success, the `Ready`-typed radar with every host-side field (`id`, `config`,
`sensor`, `processing`, `interrupt`, `_hal`) carried over unchanged; and the
round trip `prepare_sensor; hibernate_on; hibernate_off` yields exactly the
value produced by `prepare_sensor` alone (the transitions only ever move the
fields, so the host-side state is indistinguishable modulo engine-internal
state). -/
theorem C3_hibernate_off_roundtrip (r r0 : Radar)
    (hh : r.phase = RadarPhase.Hibernating) (h0 : r0.phase = RadarPhase.Enabled) :
    Radar.hibernate_off true r hh = .ok { r with phase := .Ready } ∧
    Radar.prepare_sensor true r0 h0 = .ok { r0 with phase := .Ready } ∧
    Radar.hibernate_on true { r0 with phase := .Ready } rfl =
      .ok { r0 with phase := .Hibernating } ∧
    Radar.hibernate_off true { r0 with phase := .Hibernating } rfl =
      .ok { r0 with phase := .Ready } := by
  refine ⟨?_, ?_, ?_, ?_⟩ <;>
    simp [Radar.hibernate_off, Radar.prepare_sensor, Radar.hibernate_on]

/-- **C3 witness.** The transition chain on a concrete radar value: the
round trip ends in exactly the post-`prepare_sensor` value. -/
theorem C3_witness :
    ({ phase := .Hibernating, id := 1, config := 2, sensor := 3,
       processing := 4, interrupt := 5, hal := 6 } : Radar).phase =
      RadarPhase.Hibernating ∧
    (Radar.hibernate_off true
        { phase := .Hibernating, id := 1, config := 2, sensor := 3,
          processing := 4, interrupt := 5, hal := 6 } rfl =
      .ok { phase := .Ready, id := 1, config := 2, sensor := 3,
            processing := 4, interrupt := 5, hal := 6 } ∧
     Radar.prepare_sensor true
        { phase := .Enabled, id := 1, config := 2, sensor := 3,
          processing := 4, interrupt := 5, hal := 6 } rfl =
      .ok { phase := .Ready, id := 1, config := 2, sensor := 3,
            processing := 4, interrupt := 5, hal := 6 } ∧
     Radar.hibernate_on true
        { phase := .Ready, id := 1, config := 2, sensor := 3,
          processing := 4, interrupt := 5, hal := 6 } rfl =
      .ok { phase := .Hibernating, id := 1, config := 2, sensor := 3,
            processing := 4, interrupt := 5, hal := 6 } ∧
     Radar.hibernate_off true
        { phase := .Hibernating, id := 1, config := 2, sensor := 3,
          processing := 4, interrupt := 5, hal := 6 } rfl =
      .ok { phase := .Ready, id := 1, config := 2, sensor := 3,
            processing := 4, interrupt := 5, hal := 6 }) :=
  ⟨rfl,
   C3_hibernate_off_roundtrip
     { phase := .Hibernating, id := 1, config := 2, sensor := 3,
       processing := 4, interrupt := 5, hal := 6 }
     { phase := .Enabled, id := 1, config := 2, sensor := 3,
       processing := 4, interrupt := 5, hal := 6 } rfl rfl⟩

/-- **C6.** Every lifecycle transition (`prepare_sensor`, `hibernate_on`,
`hibernate_off`) consumes the radar and, on engine failure, returns a
`TransitionError` that holds the original object with all of its fields (and
its state) unchanged, tagged with the transition's error kind. -/
theorem C6_failed_transition_returns_original (r0 r1 r2 : Radar)
    (h0 : r0.phase = RadarPhase.Enabled) (h1 : r1.phase = RadarPhase.Ready)
    (h2 : r2.phase = RadarPhase.Hibernating) :
    Radar.prepare_sensor false r0 h0 =
      .error { radar := r0, error := .PrepareFailed } ∧
    Radar.hibernate_on false r1 h1 =
      .error { radar := r1, error := .HibernationOnFailed } ∧
    Radar.hibernate_off false r2 h2 =
      .error { radar := r2, error := .HibernationOffFailed } := by
  refine ⟨?_, ?_, ?_⟩ <;>
    simp [Radar.prepare_sensor, Radar.hibernate_on, Radar.hibernate_off]

/-- **C6 witness.** Concrete radars in each state: each failing transition
hands back exactly the original value. -/
theorem C6_witness :
    ({ phase := .Enabled, id := 1, config := 2, sensor := 3, processing := 4,
       interrupt := 5, hal := 6 } : Radar).phase = RadarPhase.Enabled ∧
    (Radar.prepare_sensor false
        { phase := .Enabled, id := 1, config := 2, sensor := 3,
          processing := 4, interrupt := 5, hal := 6 } rfl =
      .error { radar := { phase := .Enabled, id := 1, config := 2, sensor := 3,
                          processing := 4, interrupt := 5, hal := 6 },
               error := .PrepareFailed } ∧
     Radar.hibernate_on false
        { phase := .Ready, id := 1, config := 2, sensor := 3,
          processing := 4, interrupt := 5, hal := 6 } rfl =
      .error { radar := { phase := .Ready, id := 1, config := 2, sensor := 3,
                          processing := 4, interrupt := 5, hal := 6 },
               error := .HibernationOnFailed } ∧
     Radar.hibernate_off false
        { phase := .Hibernating, id := 1, config := 2, sensor := 3,
          processing := 4, interrupt := 5, hal := 6 } rfl =
      .error { radar := { phase := .Hibernating, id := 1, config := 2,
                          sensor := 3, processing := 4, interrupt := 5,
                          hal := 6 },
               error := .HibernationOffFailed }) :=
  ⟨rfl,
   C6_failed_transition_returns_original
     { phase := .Enabled, id := 1, config := 2, sensor := 3, processing := 4,
       interrupt := 5, hal := 6 }
     { phase := .Ready, id := 1, config := 2, sensor := 3, processing := 4,
       interrupt := 5, hal := 6 }
     { phase := .Hibernating, id := 1, config := 2, sensor := 3,
       processing := 4, interrupt := 5, hal := 6 } rfl rfl rfl⟩

/-- Without a successful `prepare_sensor`, any sequence of available
operations keeps a radar constructed in `Enabled` in the `Enabled` state (or
is undefined). -/
theorem run_enabled_without_prepare (ls : List RadarOp)
    (h : RadarOp.prepareSensor true ∉ ls) :
    RadarOp.run RadarPhase.Enabled ls = none ∨
    RadarOp.run RadarPhase.Enabled ls = some RadarPhase.Enabled := by
  induction ls with
  | nil => exact Or.inr rfl
  | cons op ops ih =>
    have hop : op ≠ RadarOp.prepareSensor true := fun he => h (he ▸ List.mem_cons_self op ops)
    have htail : RadarOp.prepareSensor true ∉ ops := fun ht => h (List.mem_cons_of_mem op ht)
    cases op with
    | calibrate => simpa [RadarOp.run, RadarOp.step] using ih htail
    | resetSensor => simpa [RadarOp.run, RadarOp.step] using ih htail
    | prepareSensor engOk =>
      cases engOk with
      | true => exact absurd rfl hop
      | false => simpa [RadarOp.run, RadarOp.step] using ih htail
    | hibernateOn engOk => simp [RadarOp.run, RadarOp.step]
    | hibernateOff engOk => simp [RadarOp.run, RadarOp.step]
    | measure => simp [RadarOp.run, RadarOp.step]

/-- **C7.** A radar built by `new` is in the `Enabled` state; `measure` is
defined exactly on the `Ready` state; and any operation sequence from
`Enabled` that contains `measure` but no successful `prepare_sensor` before
it is ill-typed (the run is undefined): `measure` is unreachable without an
intervening successful `prepare_sensor`. -/
theorem C7_measure_unreachable_without_prepare
    (id config sensor processing interrupt hal : ℕ) (ls : List RadarOp)
    (hm : RadarOp.measure ∈ ls) (hnp : RadarOp.prepareSensor true ∉ ls) :
    (Radar.new id config sensor processing interrupt hal).phase =
      RadarPhase.Enabled ∧
    (∀ σ, (RadarOp.step RadarOp.measure σ).isSome = true ↔ σ = RadarPhase.Ready) ∧
    RadarOp.run RadarPhase.Enabled ls = none := by
  refine ⟨rfl, ?_, ?_⟩
  · intro σ
    cases σ <;> simp [RadarOp.step]
  · induction ls with
    | nil => exact absurd hm (List.not_mem_nil _)
    | cons op ops ih =>
      have htail : RadarOp.prepareSensor true ∉ ops :=
        fun ht => hnp (List.mem_cons_of_mem op ht)
      cases op with
      | calibrate =>
        have hm' : RadarOp.measure ∈ ops := by simpa using hm
        simpa [RadarOp.run, RadarOp.step] using ih hm' htail
      | resetSensor =>
        have hm' : RadarOp.measure ∈ ops := by simpa using hm
        simpa [RadarOp.run, RadarOp.step] using ih hm' htail
      | prepareSensor engOk =>
        cases engOk with
        | true => exact absurd (List.mem_cons_self _ _) hnp
        | false =>
          have hm' : RadarOp.measure ∈ ops := by simpa using hm
          simpa [RadarOp.run, RadarOp.step] using ih hm' htail
      | hibernateOn engOk => simp [RadarOp.run, RadarOp.step]
      | hibernateOff engOk => simp [RadarOp.run, RadarOp.step]
      | measure => simp [RadarOp.run, RadarOp.step]

/-- **C7 witness.** Calling `measure` immediately after `new` (the sequence
`[measure]` containing no successful `prepare_sensor`) is undefined. -/
theorem C7_witness :
    (RadarOp.measure ∈ [RadarOp.measure] ∧
     RadarOp.prepareSensor true ∉ [RadarOp.measure]) ∧
    ((Radar.new 1 2 3 4 5 6).phase = RadarPhase.Enabled ∧
     (∀ σ, (RadarOp.step RadarOp.measure σ).isSome = true ↔ σ = RadarPhase.Ready) ∧
     RadarOp.run RadarPhase.Enabled [RadarOp.measure] = none) :=
  ⟨⟨by decide, by decide⟩,
   C7_measure_unreachable_without_prepare 1 2 3 4 5 6 [RadarOp.measure]
     (by decide) (by decide)⟩

end A121
